import Mathlib

/-!
Shallow embedding of the `easy-dl` library (TypeScript, `src/lib.ts`),
stream-pipe variant of `download` plus the shared binary-resolution and
remote-fetch helpers, and the execFile variant of `download` (needed for
the cookie-file handling it alone implements).

Conventions of the embedding:
* `node:path`'s `join` is modelled as `"/"`-separated concatenation
  (`joinPath`); the claims under study never depend on the separator.
* External effects (the `which`/`where` probe, `existsSync`, the HTTP GET,
  child-process exit codes, stdout chunks) are inputs supplied by an
  environment record; each operation returns the list of actions it
  performed, in program order, together with its result, so that ordering
  and counting claims ("zero network requests", "mkdir before create")
  are provable as facts about the returned trace.
* JavaScript string truthiness (`!url`, `!options.output`,
  `if (options.cookies)`, `options.ytdlpArgs?.length`) is translated
  explicitly: `none` and `some ""` are falsy, a non-empty array is truthy.
-/

namespace EasyDl

/-- `node:path` `join` of two segments, POSIX-style. -/
def joinPath (a b : String) : String := a ++ "/" ++ b

/-- Download mode, the `"audio" | "video"` union of `DownloadOptions.mode`. -/
inductive Mode where
  | audio
  | video
  deriving DecidableEq, Repr

/-- The options bag of the stream-pipe `download` (lib.ts, second variant):
`mode`, `format`, `quality`, `output`, `ytdlpArgs`, `ffmpegArgs`, each
optional. -/
structure DlOptions where
  mode : Option Mode := none
  format : Option String := none
  quality : Option String := none
  output : Option String := none
  ytdlpArgs : Option (List String) := none
  ffmpegArgs : Option (List String) := none

/-- `const mode = options.mode ?? "audio"` -/
def resolveMode (o : DlOptions) : Mode := o.mode.getD Mode.audio

/-- `const format = options.format ?? (mode === "audio" ? "mp3" : "mp4")` -/
def resolveFormat (o : DlOptions) : String :=
  o.format.getD (if resolveMode o = Mode.audio then "mp3" else "mp4")

/-- `const quality = options.quality ?? (mode === "audio" ? "0" : "best")` -/
def resolveQuality (o : DlOptions) : String :=
  o.quality.getD (if resolveMode o = Mode.audio then "0" else "best")

/-- `const isBufferMode = !options.output` — JS truthiness: absent or empty
string count as "no output path". -/
def isBufferMode (o : DlOptions) : Bool :=
  match o.output with
  | none => true
  | some s => s = ""

/-- `const outputPath = isBufferMode ? "-" : options.output!` -/
def outputTarget (o : DlOptions) : String :=
  if isBufferMode o then "-" else o.output.getD ""

/-- The yt-dlp argument list built by the stream-pipe `download`:
mode-dependent flags, then `--quiet --no-warnings`, then `-o <target> <url>`,
then the caller's `ytdlpArgs` when present and non-empty. -/
def buildYtdlpArgs (url : String) (o : DlOptions) : List String :=
  let quality := resolveQuality o
  let format := resolveFormat o
  let base :=
    (if resolveMode o = Mode.audio then ["-f", quality]
     else ["-f", quality, "--merge-output-format", format])
    ++ ["--quiet", "--no-warnings"]
    ++ ["-o", outputTarget o, url]
  match o.ytdlpArgs with
  | some extra => if extra.length ≠ 0 then base ++ extra else base
  | none => base

/-- The ffmpeg argument list built by the stream-pipe `download`:
`-i pipe:0`, then `-vn` (audio) or `-c copy` (video), `-f <format> pipe:1`,
then the caller's `ffmpegArgs` when present and non-empty. -/
def buildFfmpegArgs (o : DlOptions) : List String :=
  let format := resolveFormat o
  let base :=
    if resolveMode o = Mode.audio then
      ["-i", "pipe:0", "-vn", "-f", format, "pipe:1"]
    else
      ["-i", "pipe:0", "-c", "copy", "-f", format, "pipe:1"]
  match o.ffmpegArgs with
  | some extra => if extra.length ≠ 0 then base ++ extra else base
  | none => base

/-- Outcome of one HTTP GET issued by `downloadFile`: either a response with
a status code and a body (a sequence of chunks), or a transport-level
error surfaced on the request's error event. -/
inductive HttpEvent where
  | response (status : Nat) (body : List (List Nat))
  | netError (msg : String)

/-- Filesystem-level actions performed by `downloadFile`, in order. -/
inductive FsAction where
  | mkdirDir (path : String)
  | createFile (path : String)
  | writeBody (path : String) (bytes : List Nat)
  deriving DecidableEq, Repr

/-- Actions performed by `ensureBinary`, in order. -/
inductive ResolveAction where
  | execWhich (cmd : String) (exe : String)
  | checkLocal (path : String)
  | logMsg (msg : String)
  | fetchFile (url : String) (dest : String)
  deriving DecidableEq, Repr

/-- The ambient platform and external-world behaviour that binary
resolution observes: `process.platform`, `process.arch`, `process.cwd()`,
whether the locate command exits zero for a given executable name, whether
`existsSync` holds at a given path, and the outcome of an HTTP GET per URL. -/
structure ResolveEnv where
  platform : String
  arch : String
  cwd : String
  whichOk : String → Bool
  localExists : String → Bool
  httpGet : String → HttpEvent

/-- `downloadFile(url, dest)`: `mkdirSync(join(cwd,"bin"))`, then
`createWriteStream(dest)`, then GET; a non-200 status rejects with
`Download failed: <status>` before any body byte is piped; a transport
error rejects with the error unchanged; a 200 streams the body to `dest`. -/
def downloadFile (env : ResolveEnv) (url dest : String) :
    List FsAction × Except String Unit :=
  let pre := [FsAction.mkdirDir (joinPath env.cwd "bin"), FsAction.createFile dest]
  match env.httpGet url with
  | HttpEvent.netError e => (pre, Except.error e)
  | HttpEvent.response status body =>
    if status ≠ 200 then
      (pre, Except.error ("Download failed: " ++ toString status))
    else
      (pre ++ [FsAction.writeBody dest body.flatten], Except.ok ())

/-- Release-asset URL for yt-dlp, keyed by Windows vs the rest. -/
def ytDlpUrl (isWin : Bool) : String :=
  if isWin then
    "https://github.com/yt-dlp/yt-dlp/releases/latest/download/yt-dlp.exe"
  else
    "https://github.com/yt-dlp/yt-dlp/releases/latest/download/yt-dlp"

/-- Release-asset URL for ffmpeg (ffmpeg-static mirror), keyed by platform
and architecture exactly as the `if`/`else` chain in `ensureBinary`. -/
def ffmpegUrl (platform arch : String) : String :=
  if platform = "win32" then
    "https://github.com/eugeneware/ffmpeg-static/releases/latest/download/win32-x64.exe"
  else if platform = "darwin" then
    if arch = "arm64" then
      "https://github.com/eugeneware/ffmpeg-static/releases/latest/download/darwin-arm64"
    else
      "https://github.com/eugeneware/ffmpeg-static/releases/latest/download/darwin-x64"
  else
    if arch = "arm64" then
      "https://github.com/eugeneware/ffmpeg-static/releases/latest/download/linux-arm64"
    else
      "https://github.com/eugeneware/ffmpeg-static/releases/latest/download/linux-x64"

/-- The static URL mapping, as a function of (tool, platform, architecture). -/
def binaryUrl (name platform arch : String) : String :=
  if name = "yt-dlp" then ytDlpUrl (platform = "win32") else ffmpegUrl platform arch

/-- Platform-appropriate executable filename: `.exe` suffix on Windows. -/
def exeFor (platform name : String) : String :=
  if platform = "win32" then name ++ ".exe" else name

/-- The platform's locate command: `where` on Windows, `which` elsewhere. -/
def whichCmdFor (platform : String) : String :=
  if platform = "win32" then "where" else "which"

/-- The local cache path `join(cwd, "bin", exe)`. -/
def localBinFor (env : ResolveEnv) (name : String) : String :=
  joinPath (joinPath env.cwd "bin") (exeFor env.platform name)

/-- `ensureBinary(name)`: probe the system search path with `which`/`where`;
on failure check `./bin/<exe>`; on failure auto-download the tool's URL into
`./bin/<exe>` (one fetch, no retry); an unknown name throws
`<name> binary not found`. Returns the trace of actions and the path result. -/
def ensureBinary (env : ResolveEnv) (name : String) :
    List ResolveAction × Except String String :=
  let exe := exeFor env.platform name
  let whichCmd := whichCmdFor env.platform
  if env.whichOk exe then
    ([ResolveAction.execWhich whichCmd exe], Except.ok exe)
  else
    let localBin := localBinFor env name
    let probe := [ResolveAction.execWhich whichCmd exe, ResolveAction.checkLocal localBin]
    if env.localExists localBin then
      (probe, Except.ok localBin)
    else if name = "yt-dlp" then
      let url := ytDlpUrl (env.platform = "win32")
      let fetched := downloadFile env url localBin
      (probe ++ [ResolveAction.logMsg ("Downloading yt-dlp → " ++ localBin),
                 ResolveAction.fetchFile url localBin],
       match fetched.2 with
       | Except.ok _ => Except.ok localBin
       | Except.error e => Except.error e)
    else if name = "ffmpeg" then
      let url := ffmpegUrl env.platform env.arch
      let fetched := downloadFile env url localBin
      (probe ++ [ResolveAction.logMsg ("Downloading ffmpeg → " ++ localBin),
                 ResolveAction.fetchFile url localBin],
       match fetched.2 with
       | Except.ok _ => Except.ok localBin
       | Except.error e => Except.error e)
    else
      (probe, Except.error (name ++ " binary not found"))

/-- Number of fetch attempts recorded in a resolution trace. -/
def fetchCount (tr : List ResolveAction) : Nat :=
  (tr.filter fun a =>
    match a with
    | ResolveAction.fetchFile _ _ => true
    | _ => false).length

/-- How the promise returned by the stream-pipe `download` settles. -/
inductive Settlement where
  | resolvedBuffer (data : List Nat)
  | resolvedVoid
  | rejected (msg : String)
  deriving DecidableEq, Repr

/-- Actions performed by the stream-pipe `download`, in order. -/
inductive PipeAction where
  | resolveTool (name : String) (trace : List ResolveAction)
  | spawnProc (path : String) (args : List String)
  | warnLog (msg : String)
  deriving DecidableEq, Repr

/-- External-world behaviour observed by one stream-pipe `download` run:
the resolution environment, the two processes' exit codes on their `close`
events, the chunks that arrive on ffmpeg's stdout (in order), and the
chunks on yt-dlp's stderr. -/
structure PipeEnv where
  renv : ResolveEnv
  ytdlpExit : Int
  ffmpegExit : Int
  chunks : List (List Nat)
  ytdlpStderr : List String

/-- The ffmpeg `close` handler: a non-zero code rejects with
`ffmpeg exited with code <N>`; code 0 resolves `Buffer.concat(chunks)` in
buffer mode and `undefined` otherwise. -/
def settle (isBuf : Bool) (chunks : List (List Nat)) (code : Int) : Settlement :=
  if code ≠ 0 then Settlement.rejected ("ffmpeg exited with code " ++ toString code)
  else if isBuf then Settlement.resolvedBuffer chunks.flatten
  else Settlement.resolvedVoid

/-- The stream-pipe `download(url, options)`: guard the falsy URL, resolve
yt-dlp then ffmpeg (each rejection propagating), build both argument lists,
spawn both processes with yt-dlp's stdout piped into ffmpeg's stdin, log
yt-dlp stderr chunks and a non-zero yt-dlp exit as warnings only, and
settle on ffmpeg's `close` event. -/
def download (url : String) (o : DlOptions) (env : PipeEnv) :
    List PipeAction × Settlement :=
  if url = "" then
    ([], Settlement.rejected "No URL provided for download")
  else
    let r1 := ensureBinary env.renv "yt-dlp"
    match r1.2 with
    | Except.error e => ([PipeAction.resolveTool "yt-dlp" r1.1], Settlement.rejected e)
    | Except.ok ytDlp =>
      let r2 := ensureBinary env.renv "ffmpeg"
      match r2.2 with
      | Except.error e =>
        ([PipeAction.resolveTool "yt-dlp" r1.1, PipeAction.resolveTool "ffmpeg" r2.1],
         Settlement.rejected e)
      | Except.ok ffmpeg =>
        let warns :=
          env.ytdlpStderr.map (fun s => PipeAction.warnLog ("⚠️ [yt-dlp] " ++ s))
          ++ (if env.ytdlpExit ≠ 0 then
                [PipeAction.warnLog ("⚠️ [yt-dlp] exited with code " ++ toString env.ytdlpExit)]
              else [])
        ([PipeAction.resolveTool "yt-dlp" r1.1, PipeAction.resolveTool "ffmpeg" r2.1,
          PipeAction.spawnProc ytDlp (buildYtdlpArgs url o),
          PipeAction.spawnProc ffmpeg (buildFfmpegArgs o)] ++ warns,
         settle (isBufferMode o) env.chunks env.ffmpegExit)

/-! ### The execFile variant of `download` (first half of lib.ts)

This variant runs yt-dlp to completion via `execFile`, with
`--ffmpeg-location`; it alone supports the `cookies` option, materializing
a raw cookie string into `os.tmpdir()/easy-dl-cookies-<Date.now()>.txt`. -/

/-- Options bag of the execFile variant: `mode`, `format`, `quality`,
`output`, `cookies`. -/
structure V1Options where
  mode : Option Mode := none
  format : Option String := none
  quality : Option String := none
  output : Option String := none
  cookies : Option String := none

/-- External-world behaviour observed by one execFile-variant run:
`existsSync` per path, `os.tmpdir()`, `Date.now()`, whether the yt-dlp run
succeeds (and its error text when not), the `glob.sync` matches for
`easy-dl-*` under tmpdir, and the bytes `readFileSync` returns for the
first match. -/
structure V1Env where
  fileExists : String → Bool
  tmpdir : String
  now : Nat
  execOk : Bool
  execErrMsg : String
  globFiles : List String
  readBytes : List Nat

/-- Actions performed by the execFile variant, in order. -/
inductive V1Action where
  | writeTempFile (path : String) (contents : String)
  | execProc (args : List String)
  | readFile (path : String)
  | unlinkFile (path : String)
  deriving DecidableEq, Repr

/-- Result of the execFile variant. -/
inductive V1Result where
  | buffer (data : List Nat)
  | unit
  | failed (msg : String)
  deriving DecidableEq, Repr

/-- The execFile-variant `download(url, options)`: apply defaults, resolve
both binaries, build the argument list (audio: `-x --audio-format
--audio-quality`; video: `-f --merge-output-format`; then cookies, then
`--quiet --no-warnings --ffmpeg-location <ffmpeg> -o <output> <url>`), run
yt-dlp, and in buffer mode glob a temp output file, read it, unlink it and
return its bytes. A raw (non-path) cookie string is written to a temp file
that is never unlinked. -/
def downloadV1 (url : String) (o : V1Options) (renv : ResolveEnv) (env : V1Env) :
    List V1Action × V1Result :=
  let mode := o.mode.getD Mode.audio
  let format := o.format.getD (if mode = Mode.audio then "mp3" else "mp4")
  let quality := o.quality.getD (if mode = Mode.audio then "0" else "best")
  match (ensureBinary renv "yt-dlp").2 with
  | Except.error e => ([], V1Result.failed e)
  | Except.ok _ytDlp =>
    match (ensureBinary renv "ffmpeg").2 with
    | Except.error e => ([], V1Result.failed e)
    | Except.ok ffmpeg =>
      let modeArgs :=
        if mode = Mode.audio then
          ["-x", "--audio-format", format, "--audio-quality", quality]
        else
          ["-f", quality, "--merge-output-format", format]
      let cookiePrep : List V1Action × List String :=
        match o.cookies with
        | none => ([], [])
        | some c =>
          if c = "" then ([], [])
          else if env.fileExists c then ([], ["--cookies", c])
          else
            let tempFile :=
              joinPath env.tmpdir ("easy-dl-cookies-" ++ toString env.now ++ ".txt")
            ([V1Action.writeTempFile tempFile c], ["--cookies", tempFile])
      let output := o.output.getD (joinPath env.tmpdir "easy-dl-%(id)s.%(ext)s")
      let args := modeArgs ++ cookiePrep.2
        ++ ["--quiet", "--no-warnings", "--ffmpeg-location", ffmpeg, "-o", output, url]
      let ran := cookiePrep.1 ++ [V1Action.execProc args]
      if !env.execOk then
        (ran, V1Result.failed env.execErrMsg)
      else
        let bufMode :=
          match o.output with
          | none => true
          | some s => s = ""
        if bufMode then
          match env.globFiles with
          | [] => (ran, V1Result.failed "No output file produced")
          | f :: _ =>
            (ran ++ [V1Action.readFile f, V1Action.unlinkFile f], V1Result.buffer env.readBytes)
        else
          (ran, V1Result.unit)

/-- POSIX absolute path: begins with the separator. -/
def isAbsolute (p : String) : Prop := p.data.head? = some '/'

instance (p : String) : Decidable (isAbsolute p) := by
  unfold isAbsolute
  infer_instance

/-! ### Concrete environments used to instantiate the theorems -/

/-- Both tools on the system search path; the network is unreachable. -/
def sysEnv : ResolveEnv :=
  { platform := "linux", arch := "x64", cwd := "/work",
    whichOk := fun _ => true, localExists := fun _ => false,
    httpGet := fun _ => HttpEvent.netError "offline" }

/-- Neither tool on the search path, both in the local cache. -/
def cacheEnv : ResolveEnv :=
  { platform := "linux", arch := "x64", cwd := "/work",
    whichOk := fun _ => false, localExists := fun _ => true,
    httpGet := fun _ => HttpEvent.netError "offline" }

/-- Every HTTP GET answers 404 with an empty body. -/
def fetchEnv404 : ResolveEnv :=
  { platform := "linux", arch := "x64", cwd := "/work",
    whichOk := fun _ => false, localExists := fun _ => false,
    httpGet := fun _ => HttpEvent.response 404 [] }

/-- A pipeline run where ffmpeg exits 1 without emitting output. -/
def pipeEnvFfFail : PipeEnv :=
  { renv := sysEnv, ytdlpExit := 0, ffmpegExit := 1, chunks := [], ytdlpStderr := [] }

/-- A pipeline run where ffmpeg exits 0 without emitting a single byte. -/
def pipeEnvEmptyOk : PipeEnv :=
  { renv := sysEnv, ytdlpExit := 0, ffmpegExit := 0, chunks := [], ytdlpStderr := [] }

/-- A pipeline run where ffmpeg exits 0 after emitting two chunks. -/
def pipeEnvChunks : PipeEnv :=
  { renv := sysEnv, ytdlpExit := 0, ffmpegExit := 0, chunks := [[1], [2, 3]],
    ytdlpStderr := [] }

/-- execFile-variant surroundings: no cookie path on disk, a clock reading
of 111, a successful yt-dlp run and one glob match holding three bytes. -/
def v1EnvLeak : V1Env :=
  { fileExists := fun _ => false, tmpdir := "/tmp", now := 111, execOk := true,
    execErrMsg := "", globFiles := ["/tmp/easy-dl-abc.mp3"], readBytes := [1, 2, 3] }

/-! ### Helper lemmas -/

/-- Appending on the right preserves a leading separator. -/
theorem isAbsolute_append (a b : String) (h : isAbsolute a) : isAbsolute (a ++ b) := by
  unfold isAbsolute at h ⊢
  rw [String.data_append]
  cases hd : a.data with
  | nil => rw [hd] at h; simp at h
  | cons c t =>
    rw [hd] at h
    simp at h
    simp [h]

/-- `joinPath` preserves absoluteness of its first segment. -/
theorem isAbsolute_joinPath (a b : String) (h : isAbsolute a) :
    isAbsolute (joinPath a b) := by
  unfold joinPath
  exact isAbsolute_append _ _ (isAbsolute_append _ _ h)

/-! ### Claim theorems -/

/-- C10: calling the stream-pipe `download` with an empty (falsy) URL
rejects with exactly `No URL provided for download` and an empty action
trace — before any binary resolution, network request, file write, or
process spawn, for every options object and environment. -/
theorem download_empty_url_guard (o : DlOptions) (env : PipeEnv) :
    download "" o env = ([], Settlement.rejected "No URL provided for download") := rfl

/-- C2: the defaulting rule at `download` entry: `mode` defaults to audio
when absent; `format` defaults to "mp3" (audio) / "mp4" (video); `quality`
defaults to "0" (audio) / "best" (video); any explicitly supplied value is
used unchanged. -/
theorem download_defaults_rule (o : DlOptions) :
    (o.mode = none → resolveMode o = Mode.audio)
    ∧ (∀ m, o.mode = some m → resolveMode o = m)
    ∧ (resolveMode o = Mode.audio → o.format = none → resolveFormat o = "mp3")
    ∧ (resolveMode o = Mode.video → o.format = none → resolveFormat o = "mp4")
    ∧ (∀ f, o.format = some f → resolveFormat o = f)
    ∧ (resolveMode o = Mode.audio → o.quality = none → resolveQuality o = "0")
    ∧ (resolveMode o = Mode.video → o.quality = none → resolveQuality o = "best")
    ∧ (∀ q, o.quality = some q → resolveQuality o = q) := by
  refine ⟨?_, ?_, ?_, ?_, ?_, ?_, ?_, ?_⟩ <;> intros <;>
    simp_all [resolveMode, resolveFormat, resolveQuality]

/-- C2 witness: the all-absent options bag resolves to audio / "mp3" / "0". -/
theorem download_defaults_rule_witness :
    resolveMode {} = Mode.audio ∧ resolveFormat {} = "mp3" ∧ resolveQuality {} = "0" := by
  have h := download_defaults_rule {}
  exact ⟨h.1 rfl, h.2.2.1 (h.1 rfl) rfl, h.2.2.2.2.2.1 (h.1 rfl) rfl⟩

/-- C3: exact shape of the yt-dlp argument list: the select-format flag with
the resolved quality (video mode adding the output-container flag with the
resolved format), then the quiet and no-warnings flags, then the output
target followed by the URL, then the caller's extra arguments verbatim. -/
theorem ytdlp_arg_list_shape (url : String) (o : DlOptions) :
    buildYtdlpArgs url o =
      (if resolveMode o = Mode.audio then ["-f", resolveQuality o]
       else ["-f", resolveQuality o, "--merge-output-format", resolveFormat o])
      ++ ["--quiet", "--no-warnings", "-o", outputTarget o, url]
      ++ o.ytdlpArgs.getD [] := by
  unfold buildYtdlpArgs
  cases h : o.ytdlpArgs with
  | none => simp
  | some extra => cases extra <;> simp

/-- C4: exact shape of the ffmpeg argument list: read from `pipe:0`, `-vn`
exactly in audio mode and `-c copy` in video mode, `-f` with the resolved
format, write to `pipe:1`, then the caller's extra arguments verbatim. -/
theorem ffmpeg_arg_list_shape (o : DlOptions) :
    buildFfmpegArgs o =
      (if resolveMode o = Mode.audio then ["-i", "pipe:0", "-vn"]
       else ["-i", "pipe:0", "-c", "copy"])
      ++ ["-f", resolveFormat o, "pipe:1"]
      ++ o.ffmpegArgs.getD [] := by
  unfold buildFfmpegArgs
  cases h : o.ffmpegArgs with
  | none => cases hm : resolveMode o <;> simp [hm]
  | some extra => cases hm : resolveMode o <;> cases extra <;> simp [hm]

/-- Under a non-empty URL and successful resolution of both tools, the
stream-pipe `download` settles exactly as the ffmpeg close handler does. -/
theorem download_settles (url : String) (o : DlOptions) (env : PipeEnv)
    (hu : ¬ url = "")
    (hy : ∃ p, (ensureBinary env.renv "yt-dlp").2 = Except.ok p)
    (hf : ∃ p, (ensureBinary env.renv "ffmpeg").2 = Except.ok p) :
    (download url o env).2 = settle (isBufferMode o) env.chunks env.ffmpegExit := by
  obtain ⟨py, hpy⟩ := hy
  obtain ⟨pf, hpf⟩ := hf
  simp [download, hu, hpy, hpf]

/-- C1: with a non-empty URL and both binaries resolving, the operation
succeeds iff ffmpeg exits 0; a non-zero ffmpeg exit code N rejects with the
message `ffmpeg exited with code N` whatever the yt-dlp exit code; and the
yt-dlp exit code never influences the settlement. -/
theorem download_success_iff_ffmpeg_zero (url : String) (o : DlOptions) (env : PipeEnv)
    (hu : ¬ url = "")
    (hy : ∃ p, (ensureBinary env.renv "yt-dlp").2 = Except.ok p)
    (hf : ∃ p, (ensureBinary env.renv "ffmpeg").2 = Except.ok p) :
    ((¬ ∃ m, (download url o env).2 = Settlement.rejected m) ↔ env.ffmpegExit = 0)
    ∧ (env.ffmpegExit ≠ 0 →
        (download url o env).2 =
          Settlement.rejected ("ffmpeg exited with code " ++ toString env.ffmpegExit))
    ∧ (∀ y : Int,
        (download url o { env with ytdlpExit := y }).2 = (download url o env).2) := by
  have hs := download_settles url o env hu hy hf
  refine ⟨?_, ?_, ?_⟩
  · rw [hs]
    unfold settle
    by_cases he : env.ffmpegExit = 0
    · simp only [he, ne_eq, not_true_eq_false, if_false, ite_false, reduceIte]
      cases hb : isBufferMode o <;> simp [hb, he]
    · simp [he]
  · intro hne
    rw [hs]
    unfold settle
    simp [hne]
  · intro y
    have hs2 := download_settles url o { env with ytdlpExit := y } hu hy hf
    rw [hs2, hs]

/-- C1 witness: at a concrete run with both tools on the search path,
yt-dlp exit 0 and ffmpeg exit 1, the promise rejects with
`ffmpeg exited with code 1`. -/
theorem download_success_iff_ffmpeg_zero_witness :
    (download "https://u" {} pipeEnvFfFail).2 =
      Settlement.rejected "ffmpeg exited with code 1" := by
  have h := download_success_iff_ffmpeg_zero "https://u" {} pipeEnvFfFail
    (by decide) ⟨"yt-dlp", rfl⟩ ⟨"ffmpeg", rfl⟩
  exact h.2.1 (by decide)

/-- C5 counterexample: with `output` omitted and ffmpeg exiting 0 having
emitted no bytes, the promise resolves with a buffer of length zero — the
result is not a non-empty buffer as the claim states. -/
theorem download_buffer_empty_counterexample :
    (download "https://u" {} pipeEnvEmptyOk).2 = Settlement.resolvedBuffer []
    ∧ ([] : List Nat).length = 0 := ⟨rfl, rfl⟩

/-- C5 (amended): with a non-empty URL, both binaries resolving and ffmpeg
exiting 0: when `output` is omitted the downloader target is "-" and the
result is a byte buffer — possibly empty — whose length equals the total
bytes emitted on ffmpeg's stdout in arrival order; when a non-empty
`output` path is given the target is that path and the result is void. -/
theorem download_output_resolution (url : String) (o : DlOptions) (env : PipeEnv)
    (hu : ¬ url = "")
    (hy : ∃ p, (ensureBinary env.renv "yt-dlp").2 = Except.ok p)
    (hf : ∃ p, (ensureBinary env.renv "ffmpeg").2 = Except.ok p)
    (hc : env.ffmpegExit = 0) :
    (o.output = none →
       outputTarget o = "-"
       ∧ (download url o env).2 = Settlement.resolvedBuffer env.chunks.flatten
       ∧ env.chunks.flatten.length = (env.chunks.map List.length).sum)
    ∧ (∀ p, o.output = some p → p ≠ "" →
       outputTarget o = p ∧ (download url o env).2 = Settlement.resolvedVoid) := by
  have hs := download_settles url o env hu hy hf
  constructor
  · intro hnone
    have hb : isBufferMode o = true := by simp [isBufferMode, hnone]
    refine ⟨by simp [outputTarget, hb], ?_, by simp⟩
    rw [hs]
    unfold settle
    simp [hc, hb]
  · intro p hp hpne
    have hb : isBufferMode o = false := by simp [isBufferMode, hp, hpne]
    refine ⟨by simp [outputTarget, hb, hp], ?_⟩
    rw [hs]
    unfold settle
    simp [hc, hb]

/-- C5 witness: output omitted, two chunks `[1]` and `[2, 3]` arrive and
ffmpeg exits 0 — the target is "-" and the result is the buffer `[1, 2, 3]`
of length 3. -/
theorem download_output_resolution_witness :
    outputTarget {} = "-"
    ∧ (download "https://u" {} pipeEnvChunks).2 = Settlement.resolvedBuffer [1, 2, 3] := by
  have h := download_output_resolution "https://u" {} pipeEnvChunks
    (by decide) ⟨"yt-dlp", rfl⟩ ⟨"ffmpeg", rfl⟩ rfl
  have h2 := h.1 rfl
  exact ⟨h2.1, h2.2.1⟩

/-- C6: resolution tries, in order with first success winning: the system
search path probe (which/where on the platform executable name), then the
local cache file on bare existence, then auto-provisioning. A system-path
or cache hit performs zero fetches; a double miss records exactly one fetch
to the URL keyed by (tool, platform, architecture), with no retry — the
trace is the same whatever the fetch outcome. -/
theorem ensureBinary_resolution_order (env : ResolveEnv) (name : String)
    (h : name = "yt-dlp" ∨ name = "ffmpeg") :
    (env.whichOk (exeFor env.platform name) = true →
       ensureBinary env name =
         ([ResolveAction.execWhich (whichCmdFor env.platform) (exeFor env.platform name)],
          Except.ok (exeFor env.platform name))
       ∧ fetchCount (ensureBinary env name).1 = 0)
    ∧ (env.whichOk (exeFor env.platform name) = false →
       env.localExists (localBinFor env name) = true →
       ensureBinary env name =
         ([ResolveAction.execWhich (whichCmdFor env.platform) (exeFor env.platform name),
           ResolveAction.checkLocal (localBinFor env name)],
          Except.ok (localBinFor env name))
       ∧ fetchCount (ensureBinary env name).1 = 0)
    ∧ (env.whichOk (exeFor env.platform name) = false →
       env.localExists (localBinFor env name) = false →
       (ensureBinary env name).1 =
         [ResolveAction.execWhich (whichCmdFor env.platform) (exeFor env.platform name),
          ResolveAction.checkLocal (localBinFor env name),
          ResolveAction.logMsg ("Downloading " ++ name ++ " → " ++ localBinFor env name),
          ResolveAction.fetchFile (binaryUrl name env.platform env.arch)
            (localBinFor env name)]
       ∧ fetchCount (ensureBinary env name).1 = 1) := by
  rcases h with h | h <;> subst h <;>
    refine ⟨?_, ?_, ?_⟩ <;> intros <;>
    simp_all [ensureBinary, fetchCount, binaryUrl]

/-- C6 witness: with yt-dlp on the system search path on Linux, resolution
returns the bare name after the probe alone, with zero fetches. -/
theorem ensureBinary_resolution_order_witness :
    ensureBinary sysEnv "yt-dlp" =
      ([ResolveAction.execWhich "which" "yt-dlp"], Except.ok "yt-dlp")
    ∧ fetchCount (ensureBinary sysEnv "yt-dlp").1 = 0 := by
  have h := ensureBinary_resolution_order sysEnv "yt-dlp" (Or.inl rfl)
  exact h.1 rfl

/-- C7: `downloadFile` rejects a non-200 status with exactly
`Download failed: <status>` and streams no body byte to the destination;
it surfaces a transport-level error unchanged; and in every case the cache
directory is ensured before the destination file is created (a 200 streams
the body to the destination after both). -/
theorem downloadFile_fetch_policy (env : ResolveEnv) (url dest : String) :
    (∀ s body, env.httpGet url = HttpEvent.response s body → s ≠ 200 →
       downloadFile env url dest =
         ([FsAction.mkdirDir (joinPath env.cwd "bin"), FsAction.createFile dest],
          Except.error ("Download failed: " ++ toString s)))
    ∧ (∀ e, env.httpGet url = HttpEvent.netError e →
       downloadFile env url dest =
         ([FsAction.mkdirDir (joinPath env.cwd "bin"), FsAction.createFile dest],
          Except.error e))
    ∧ (∀ s body, env.httpGet url = HttpEvent.response s body → s = 200 →
       downloadFile env url dest =
         ([FsAction.mkdirDir (joinPath env.cwd "bin"), FsAction.createFile dest,
           FsAction.writeBody dest body.flatten], Except.ok ())) := by
  refine ⟨?_, ?_, ?_⟩ <;> intros <;> simp_all [downloadFile]

/-- C7 witness: a 404 answer yields the error `Download failed: 404` after
mkdir-then-create and before any body write. -/
theorem downloadFile_fetch_policy_witness :
    downloadFile fetchEnv404 "https://example/u" "/work/bin/yt-dlp" =
      ([FsAction.mkdirDir "/work/bin", FsAction.createFile "/work/bin/yt-dlp"],
       Except.error "Download failed: 404") := by
  have h := downloadFile_fetch_policy fetchEnv404 "https://example/u" "/work/bin/yt-dlp"
  exact h.1 404 [] rfl (by decide)

/-- C8: at a concrete invocation of the execFile-variant `download` with a
raw (non-path) cookie string, the temp cookie file
`/tmp/easy-dl-cookies-111.txt` is written and the run succeeds, yet no
unlink of that file appears anywhere in the trace — the materialized cookie
file is leaked rather than cleaned up before completion. -/
theorem downloadV1_cookie_file_leak :
    (downloadV1 "https://example.com/v" { cookies := some "SID=abc" } sysEnv v1EnvLeak).2
      = V1Result.buffer [1, 2, 3]
    ∧ V1Action.writeTempFile "/tmp/easy-dl-cookies-111.txt" "SID=abc"
        ∈ (downloadV1 "https://example.com/v" { cookies := some "SID=abc" } sysEnv v1EnvLeak).1
    ∧ V1Action.unlinkFile "/tmp/easy-dl-cookies-111.txt"
        ∉ (downloadV1 "https://example.com/v" { cookies := some "SID=abc" } sysEnv v1EnvLeak).1 := by
  refine ⟨rfl, ?_, ?_⟩ <;> decide

/-- C9 counterexample: with yt-dlp on the system search path, `ensureBinary`
returns the bare name "yt-dlp", which is not an absolute path. -/
theorem ensureBinary_system_path_not_absolute :
    (ensureBinary sysEnv "yt-dlp").2 = Except.ok "yt-dlp"
    ∧ ¬ isAbsolute "yt-dlp" := ⟨rfl, by decide⟩

/-- C9 (amended): a successful resolution returns either the bare platform
executable name (system-path hit — not an absolute path, the search-path
lookup is deferred to spawn time) or the `<cwd>/bin/<exe>` cache path,
which is absolute whenever the working directory is; the cache branch
checks only existence, never executability. -/
theorem ensureBinary_resolved_path (env : ResolveEnv) (name p : String)
    (h : name = "yt-dlp" ∨ name = "ffmpeg")
    (habs : isAbsolute env.cwd)
    (hok : (ensureBinary env name).2 = Except.ok p) :
    (env.whichOk (exeFor env.platform name) = true → p = exeFor env.platform name)
    ∧ (env.whichOk (exeFor env.platform name) = false →
        p = localBinFor env name ∧ isAbsolute p) := by
  have habs2 : isAbsolute (localBinFor env name) := by
    unfold localBinFor
    exact isAbsolute_joinPath _ _ (isAbsolute_joinPath _ _ habs)
  constructor
  · intro hw
    unfold ensureBinary at hok
    simp [hw] at hok
    exact hok.symm
  · intro hw
    unfold ensureBinary at hok
    simp [hw] at hok
    by_cases hl : env.localExists (localBinFor env name) = true
    · simp [hl] at hok
      exact ⟨hok.symm, hok ▸ habs2⟩
    · simp [hl] at hok
      rcases h with h | h <;> subst h <;> simp at hok <;>
        split at hok <;> simp_all

/-- C9 witness: a cache hit in `/work` returns `/work/bin/yt-dlp`, which is
the cache path and absolute. -/
theorem ensureBinary_resolved_path_witness :
    "/work/bin/yt-dlp" = localBinFor cacheEnv "yt-dlp"
    ∧ isAbsolute "/work/bin/yt-dlp" := by
  have h := ensureBinary_resolved_path cacheEnv "yt-dlp" "/work/bin/yt-dlp"
    (Or.inl rfl) (by decide) rfl
  exact h.2 rfl

end EasyDl
